import Mathlib

/-!
# SWRT/restrictederrorinfo.h

A verification development for the header
`Support/Sources/WindowsRuntime_ABI/include/SWRT/restrictederrorinfo.h`.

The header holds two declarations and nothing else:

* `SWRT_IRestrictedErrorInfo`, a struct with a single member `VirtualTable`;
* `struct SWRT_IRestrictedErrorInfoVTable`, a struct of five `__stdcall`
  function pointers.

The first part of this file transcribes both declarations, member by member,
as values of a small declaration grammar, together with the C object layout
rule (members in declaration order, each at the next multiple of its
alignment).  The second part gives the meaning of a call made through such a
handle, `_this->VirtualTable->Slot(_this, ...)`, over a word memory and a code
segment.
-/

namespace SWRT

/-! ## Declaration grammar -/

/-- Type specifiers and pointer declarators, as far as the header uses them. -/
inductive CType where
  | void
  | uint32_t
  | typedefName (name : String)
  | structTag (tag : String)
  | pointer (pointee : CType)
  deriving DecidableEq

/-- Calling-convention keywords a function declarator may carry. -/
inductive CallConv where
  | cdecl
  | stdcall
  | fastcall
  | thiscall
  | vectorcall
  deriving DecidableEq

/-- One parameter of a function declarator: its type, then its name. -/
structure Param where
  type : CType
  name : String
  deriving DecidableEq

/-- The type of a struct member: an object type, or a pointer to a function
with an optional calling-convention keyword (`none` when no keyword is
written), a return type and a parameter list. -/
inductive MemberType where
  | object (type : CType)
  | functionPointer (callConv : Option CallConv) (ret : CType) (params : List Param)
  deriving DecidableEq

/-- One struct member. -/
structure Member where
  name : String
  type : MemberType
  deriving DecidableEq

/-- A struct declaration: its tag and its members in declaration order. -/
structure StructDecl where
  tag : String
  members : List Member
  deriving DecidableEq

/-- Return type of a member, when the member is a function pointer. -/
def MemberType.returnType : MemberType → Option CType
  | .object _ => none
  | .functionPointer _ ret _ => some ret

/-- Parameter list of a member, when the member is a function pointer. -/
def MemberType.params : MemberType → Option (List Param)
  | .object _ => none
  | .functionPointer _ _ ps => some ps

/-- Calling convention written on a member; `none` for an object member and
for a function pointer without a keyword. -/
def MemberType.callConv : MemberType → Option CallConv
  | .object _ => none
  | .functionPointer cc _ _ => cc

/-- Whether the member is a function pointer. -/
def MemberType.isFunctionPointer : MemberType → Bool
  | .object _ => false
  | .functionPointer _ _ _ => true

/-! ## The two declarations of the header -/

/-- The type `SWRT_IRestrictedErrorInfo*` of every `_this` parameter. -/
def thisType : CType := .pointer (.typedefName "SWRT_IRestrictedErrorInfo")

/-- The type `SWRT_BStr*`. -/
def bstrOut : CType := .pointer (.typedefName "SWRT_BStr")

/-- Lines 6-8 of the header:
`typedef struct SWRT_IRestrictedErrorInfo { struct SWRT_IRestrictedErrorInfoVTable* VirtualTable; } SWRT_IRestrictedErrorInfo;` -/
def SWRT_IRestrictedErrorInfo : StructDecl :=
  { tag := "SWRT_IRestrictedErrorInfo"
    members :=
      [ { name := "VirtualTable"
          type := .object (.pointer (.structTag "SWRT_IRestrictedErrorInfoVTable")) } ] }

/-- Lines 10-16 of the header: `struct SWRT_IRestrictedErrorInfoVTable`. -/
def SWRT_IRestrictedErrorInfoVTable : StructDecl :=
  { tag := "SWRT_IRestrictedErrorInfoVTable"
    members :=
      [ { name := "QueryInterface"
          type := .functionPointer (some .stdcall) (.typedefName "SWRT_HResult")
            [ ⟨thisType, "_this"⟩
            , ⟨.pointer (.typedefName "SWRT_Guid"), "riid"⟩
            , ⟨.pointer (.pointer .void), "ppvObject"⟩ ] }
      , { name := "AddRef"
          type := .functionPointer (some .stdcall) .uint32_t
            [ ⟨thisType, "_this"⟩ ] }
      , { name := "Release"
          type := .functionPointer (some .stdcall) .uint32_t
            [ ⟨thisType, "_this"⟩ ] }
      , { name := "GetErrorDetails"
          type := .functionPointer (some .stdcall) (.typedefName "SWRT_HResult")
            [ ⟨thisType, "_this"⟩
            , ⟨bstrOut, "description"⟩
            , ⟨.pointer (.typedefName "SWRT_HResult"), "error"⟩
            , ⟨bstrOut, "restrictedDescription"⟩
            , ⟨bstrOut, "capabilitySid"⟩ ] }
      , { name := "GetReference"
          type := .functionPointer (some .stdcall) (.typedefName "SWRT_HResult")
            [ ⟨thisType, "_this"⟩
            , ⟨bstrOut, "reference"⟩ ] } ] }

/-! ## Object layout -/

/-- A compilation target, as far as layout needs it: the width of a pointer
in bytes.  Data pointers and function pointers have the same width. -/
structure Target where
  pointerWidth : Nat
  deriving DecidableEq

/-- Size in bytes of a member.  Pointers of either kind take one pointer
width and `uint32_t` four bytes; `void`, and the typedef names and struct
tags whose declarations are in other headers, have no size known here. -/
def MemberType.size (T : Target) : MemberType → Option Nat
  | .functionPointer _ _ _ => some T.pointerWidth
  | .object (.pointer _) => some T.pointerWidth
  | .object .uint32_t => some 4
  | .object _ => none

/-- The least `k ≥ off` that is a multiple of `a` (and `off` when `a = 0`). -/
def alignUp (off a : Nat) : Nat := off + (a - off % a) % a

/-- Byte offsets of the members, laid out from offset `off` in declaration
order, each scalar aligned to its own size. -/
def memberOffsets (T : Target) : Nat → List Member → Option (List Nat)
  | _, [] => some []
  | off, m :: ms =>
    match m.type.size T with
    | none => none
    | some sz =>
      match memberOffsets T (alignUp off sz + sz) ms with
      | none => none
      | some rest => some (alignUp off sz :: rest)

/-- End of the last member when laying out from `off`, and the largest
alignment seen so far. -/
def layoutEnd (T : Target) : Nat → Nat → List Member → Option (Nat × Nat)
  | off, al, [] => some (off, al)
  | off, al, m :: ms =>
    match m.type.size T with
    | none => none
    | some sz => layoutEnd T (alignUp off sz + sz) (max al sz) ms

/-- Offset of member number `i` of a struct (`offsetof`). -/
def StructDecl.offsetOf (T : Target) (d : StructDecl) (i : Nat) : Option Nat :=
  match memberOffsets T 0 d.members with
  | none => none
  | some offs => offs.get? i

/-- Size of a struct (`sizeof`): the end of the last member, rounded up to
the alignment of the struct. -/
def StructDecl.sizeOf (T : Target) (d : StructDecl) : Option Nat :=
  match layoutEnd T 0 0 d.members with
  | none => none
  | some (e, al) => some (alignUp e al)

/-! ## Calls through a handle

The header declares the table and the handle; the code that calls through
them is outside it.  The definitions below give a call
`_this->VirtualTable->Slot(_this, ...)` its meaning: load the table address
from the handle, load the function pointer from the slot, run the function
found there.
-/

/-- What a callee can see and change: a memory of pointer-sized cells indexed
by byte address, and the state of the foreign objects. -/
structure World (φ : Type) where
  mem : Nat → Nat
  foreign : φ

/-- A function of type
`SWRT_HResult (__stdcall *)(SWRT_IRestrictedErrorInfo*, SWRT_Guid*, void**)`.
Pointers are addresses; the result code is a signed integer. -/
abbrev QueryInterfaceFn (φ : Type) := Nat → Nat → Nat → World φ → Int × World φ

/-- A function of type `uint32_t (__stdcall *)(SWRT_IRestrictedErrorInfo*)`,
the type of both `AddRef` and `Release`. -/
abbrev RefCountFn (φ : Type) := Nat → World φ → Nat × World φ

/-- A function of type
`SWRT_HResult (__stdcall *)(SWRT_IRestrictedErrorInfo*, SWRT_BStr*, SWRT_HResult*, SWRT_BStr*, SWRT_BStr*)`. -/
abbrev GetErrorDetailsFn (φ : Type) :=
  Nat → Nat → Nat → Nat → Nat → World φ → Int × World φ

/-- A function of type
`SWRT_HResult (__stdcall *)(SWRT_IRestrictedErrorInfo*, SWRT_BStr*)`. -/
abbrev GetReferenceFn (φ : Type) := Nat → Nat → World φ → Int × World φ

/-- A function in the code segment, tagged with which of the four function
types of the header it has. -/
inductive Code (φ : Type) where
  | queryInterface (f : QueryInterfaceFn φ)
  | refCount (f : RefCountFn φ)
  | getErrorDetails (f : GetErrorDetailsFn φ)
  | getReference (f : GetReferenceFn φ)

/-- The fixed part of an execution: the target and its code segment, which
maps an address to the function that starts there, if any. -/
structure Machine (φ : Type) where
  target : Target
  code : Nat → Option (Code φ)

/-- A value of `struct SWRT_IRestrictedErrorInfoVTable`: one function for each
of the five members, in declaration order. -/
structure VirtualTable (φ : Type) where
  QueryInterface : QueryInterfaceFn φ
  AddRef : RefCountFn φ
  Release : RefCountFn φ
  GetErrorDetails : GetErrorDetailsFn φ
  GetReference : GetReferenceFn φ

/-- The function held by member number `i` of a table. -/
def VirtualTable.slot {φ : Type} (t : VirtualTable φ) : Nat → Option (Code φ)
  | 0 => some (.queryInterface t.QueryInterface)
  | 1 => some (.refCount t.AddRef)
  | 2 => some (.refCount t.Release)
  | 3 => some (.getErrorDetails t.GetErrorDetails)
  | 4 => some (.getReference t.GetReference)
  | _ => none

/-- The table `t` is stored at address `vt`: for each of the five members, the
cell `i` pointer widths after `vt` holds the address of the function `t` has in
member `i`. -/
def installedAt {φ : Type} (M : Machine φ) (w : World φ) (vt : Nat)
    (t : VirtualTable φ) : Prop :=
  ∀ i, i < 5 → M.code (w.mem (vt + i * M.target.pointerWidth)) = t.slot i

/-- A call through a handle: which member is called, with the arguments that
follow `_this`. -/
inductive Call where
  | queryInterface (riid ppvObject : Nat)
  | addRef
  | release
  | getErrorDetails (description error restrictedDescription capabilitySid : Nat)
  | getReference (reference : Nat)
  deriving DecidableEq

/-- Index of the member a call goes through. -/
def Call.slot : Call → Nat
  | .queryInterface _ _ => 0
  | .addRef => 1
  | .release => 2
  | .getErrorDetails _ _ _ _ => 3
  | .getReference _ => 4

/-- The value a call returns: an `SWRT_HResult` or a `uint32_t`. -/
inductive Ret where
  | hresult (value : Int)
  | uint32 (value : Nat)
  deriving DecidableEq

/-- Modelled from the spec: the code that reads a slot through a handle is not
in the header.  "Caller obtains a handle, indexes into its table": the table
address is read from the `VirtualTable` member of the handle at `this`, the
function pointer from member `i` of the table, each at its `offsetof`, and the
code segment gives the function at that address. -/
def loadSlot {φ : Type} (M : Machine φ) (w : World φ) (this i : Nat) :
    Option (Code φ) :=
  match SWRT_IRestrictedErrorInfo.offsetOf M.target 0 with
  | none => none
  | some o =>
    match SWRT_IRestrictedErrorInfoVTable.offsetOf M.target i with
    | none => none
    | some oi => M.code (w.mem (w.mem (this + o) + oi))

/-- Modelled from the spec: the code that calls a loaded function pointer is
not in the header.  The function is run on `this` and the arguments of the call
and its result is the result of the call ("a direct, unchecked conduit to
foreign code"); a function of another type than the member called has is not a
call with a meaning. -/
def applyCode {φ : Type} : Code φ → Nat → Call → World φ → Option (Ret × World φ)
  | .queryInterface f, this, .queryInterface riid ppvObject, w =>
    some (.hresult (f this riid ppvObject w).1, (f this riid ppvObject w).2)
  | .refCount f, this, .addRef, w =>
    some (.uint32 (f this w).1, (f this w).2)
  | .refCount f, this, .release, w =>
    some (.uint32 (f this w).1, (f this w).2)
  | .getErrorDetails f, this,
      .getErrorDetails description error restrictedDescription capabilitySid, w =>
    some (.hresult (f this description error restrictedDescription capabilitySid w).1,
      (f this description error restrictedDescription capabilitySid w).2)
  | .getReference f, this, .getReference reference, w =>
    some (.hresult (f this reference w).1, (f this reference w).2)
  | _, _, _, _ => none

/-- Modelled from the spec: the calling code is not in the header.  "Invoking
any slot through a handle dispatches to the function pointer stored" at the
fixed offset of that slot in the table. -/
def invoke {φ : Type} (M : Machine φ) (this : Nat) (c : Call) (w : World φ) :
    Option (Ret × World φ) :=
  match loadSlot M w this c.slot with
  | none => none
  | some fn => applyCode fn this c w

/-! ## Test doubles -/

/-- Modelled from the spec: the test doubles are not in the header.
The `AddRef` of "a fake table that returns an internally tracked counter": the
counter is the foreign state, a `uint32_t`; it is incremented, wrapping at
4294967296 (2 to the 32), and the resulting count returned. -/
def counterAddRef : RefCountFn Nat := fun _ w =>
  ((w.foreign + 1) % 4294967296, { w with foreign := (w.foreign + 1) % 4294967296 })

/-- Modelled from the spec: the test doubles are not in the header.
The `Release` of the same fake table: the `uint32_t` counter is decremented and
the resulting count returned; below zero the count wraps to 4294967295. -/
def counterRelease : RefCountFn Nat := fun _ w =>
  (if w.foreign = 0 then 4294967295 else w.foreign - 1,
    { w with foreign := if w.foreign = 0 then 4294967295 else w.foreign - 1 })

/-- Modelled from the spec: the test doubles are not in the header.
A `QueryInterface` that fails with `E_NOINTERFACE` (0x80004002 as a signed
32-bit value) and writes nothing. -/
def failingQueryInterface : QueryInterfaceFn Nat := fun _ _ _ w =>
  (-2147467262, w)

/-- Modelled from the spec: the test doubles are not in the header.
A "test double table with known dummy functions": the failing
`QueryInterface`, the counting `AddRef` and `Release`, a `GetErrorDetails` that
stores 7 through `error` and returns 0, and a `GetReference` that returns 1. -/
def doubleTable : VirtualTable Nat where
  QueryInterface := failingQueryInterface
  AddRef := counterAddRef
  Release := counterRelease
  GetErrorDetails := fun _ _ error _ _ w =>
    (0, { w with mem := fun a => if a = error then 7 else w.mem a })
  GetReference := fun _ _ w => (1, w)

/-- A 64-bit machine whose code segment has the five functions of
`doubleTable` at addresses 4096 to 4100. -/
def doubleMachine : Machine Nat where
  target := ⟨8⟩
  code := fun a =>
    if a = 4096 then doubleTable.slot 0
    else if a = 4097 then doubleTable.slot 1
    else if a = 4098 then doubleTable.slot 2
    else if a = 4099 then doubleTable.slot 3
    else if a = 4100 then doubleTable.slot 4
    else none

/-- A memory for `doubleMachine`: a handle at address 16 whose `VirtualTable`
is 64, the table of five function pointers at addresses 64 to 103, zero
elsewhere; the counter of the fake table starts at `n`. -/
def doubleWorld (n : Nat) : World Nat where
  mem := fun a =>
    if a = 16 then 64
    else if a = 64 then 4096
    else if a = 72 then 4097
    else if a = 80 then 4098
    else if a = 88 then 4099
    else if a = 96 then 4100
    else 0
  foreign := n

/-! ## Layout lemmas -/

theorem alignUp_of_dvd {off a : Nat} (h : a ∣ off) : alignUp off a = off := by
  obtain ⟨k, rfl⟩ := h
  simp [alignUp]

theorem alignUp_zero (a : Nat) : alignUp 0 a = 0 :=
  alignUp_of_dvd (Nat.dvd_zero a)

theorem alignUp_mul (k a : Nat) : alignUp (k * a) a = k * a :=
  alignUp_of_dvd (Nat.dvd_mul_left a k)

/-- The five slots of the dispatch table sit at consecutive multiples of the
pointer width. -/
theorem vtable_memberOffsets (T : Target) :
    memberOffsets T 0 SWRT_IRestrictedErrorInfoVTable.members
      = some [0, T.pointerWidth, 2 * T.pointerWidth, 3 * T.pointerWidth,
              4 * T.pointerWidth] := by
  have h1 : alignUp T.pointerWidth T.pointerWidth = T.pointerWidth :=
    alignUp_of_dvd (Nat.dvd_refl _)
  have e2 : T.pointerWidth + T.pointerWidth = 2 * T.pointerWidth := by ring
  have e3 : 2 * T.pointerWidth + T.pointerWidth = 3 * T.pointerWidth := by ring
  have e4 : 3 * T.pointerWidth + T.pointerWidth = 4 * T.pointerWidth := by ring
  simp [SWRT_IRestrictedErrorInfoVTable, memberOffsets, MemberType.size,
    alignUp_zero, h1, e2, e3, e4, alignUp_mul]

theorem vtable_offsetOf (T : Target) (i : Nat) (hi : i < 5) :
    SWRT_IRestrictedErrorInfoVTable.offsetOf T i = some (i * T.pointerWidth) := by
  unfold StructDecl.offsetOf
  rw [vtable_memberOffsets]
  interval_cases i <;> simp

theorem handle_offsetOf (T : Target) :
    SWRT_IRestrictedErrorInfo.offsetOf T 0 = some 0 := by
  simp [StructDecl.offsetOf, SWRT_IRestrictedErrorInfo, memberOffsets,
    MemberType.size, alignUp_zero]


/-! ## Dispatch lemmas -/

theorem loadSlot_installed {φ : Type} (M : Machine φ) (w : World φ)
    (this vt : Nat) (t : VirtualTable φ) (i : Nat) (hi : i < 5)
    (hh : w.mem this = vt) (ht : installedAt M w vt t) :
    loadSlot M w this i = t.slot i := by
  unfold loadSlot
  rw [handle_offsetOf, vtable_offsetOf _ _ hi]
  simp only [Nat.add_zero, hh]
  exact ht i hi

theorem installedAt_of_mem_eq {φ : Type} (M : Machine φ) (w w1 : World φ)
    (vt : Nat) (t : VirtualTable φ) (hm : w1.mem = w.mem)
    (ht : installedAt M w vt t) : installedAt M w1 vt t := by
  intro i hi
  rw [hm]
  exact ht i hi

theorem doubleTable_installed (n : Nat) :
    installedAt doubleMachine (doubleWorld n) 64 doubleTable := by
  intro i hi
  interval_cases i <;> simp [doubleMachine, doubleWorld, VirtualTable.slot]

theorem invoke_queryInterface {φ : Type} (M : Machine φ) (w : World φ)
    (this vt : Nat) (t : VirtualTable φ) (riid ppvObject : Nat)
    (hh : w.mem this = vt) (ht : installedAt M w vt t) :
    invoke M this (.queryInterface riid ppvObject) w
      = some (.hresult (t.QueryInterface this riid ppvObject w).1,
          (t.QueryInterface this riid ppvObject w).2) := by
  simp [invoke, Call.slot, loadSlot_installed M w this vt t 0 (by decide) hh ht,
    VirtualTable.slot, applyCode]

theorem invoke_addRef {φ : Type} (M : Machine φ) (w : World φ)
    (this vt : Nat) (t : VirtualTable φ)
    (hh : w.mem this = vt) (ht : installedAt M w vt t) :
    invoke M this .addRef w
      = some (.uint32 (t.AddRef this w).1, (t.AddRef this w).2) := by
  simp [invoke, Call.slot, loadSlot_installed M w this vt t 1 (by decide) hh ht,
    VirtualTable.slot, applyCode]

theorem invoke_release {φ : Type} (M : Machine φ) (w : World φ)
    (this vt : Nat) (t : VirtualTable φ)
    (hh : w.mem this = vt) (ht : installedAt M w vt t) :
    invoke M this .release w
      = some (.uint32 (t.Release this w).1, (t.Release this w).2) := by
  simp [invoke, Call.slot, loadSlot_installed M w this vt t 2 (by decide) hh ht,
    VirtualTable.slot, applyCode]

theorem invoke_getErrorDetails {φ : Type} (M : Machine φ) (w : World φ)
    (this vt : Nat) (t : VirtualTable φ)
    (description error restrictedDescription capabilitySid : Nat)
    (hh : w.mem this = vt) (ht : installedAt M w vt t) :
    invoke M this
        (.getErrorDetails description error restrictedDescription capabilitySid) w
      = some
          (.hresult (t.GetErrorDetails this description error
              restrictedDescription capabilitySid w).1,
            (t.GetErrorDetails this description error
              restrictedDescription capabilitySid w).2) := by
  simp [invoke, Call.slot, loadSlot_installed M w this vt t 3 (by decide) hh ht,
    VirtualTable.slot, applyCode]

theorem invoke_getReference {φ : Type} (M : Machine φ) (w : World φ)
    (this vt : Nat) (t : VirtualTable φ) (reference : Nat)
    (hh : w.mem this = vt) (ht : installedAt M w vt t) :
    invoke M this (.getReference reference) w
      = some (.hresult (t.GetReference this reference w).1,
          (t.GetReference this reference w).2) := by
  simp [invoke, Call.slot, loadSlot_installed M w this vt t 4 (by decide) hh ht,
    VirtualTable.slot, applyCode]

theorem counterAddRef_eq (this : Nat) (w : World Nat) :
    counterAddRef this w
      = ((w.foreign + 1) % 4294967296,
          { mem := w.mem, foreign := (w.foreign + 1) % 4294967296 }) :=
  rfl

theorem counterRelease_eq (this : Nat) (w : World Nat) :
    counterRelease this w
      = (if w.foreign = 0 then 4294967295 else w.foreign - 1,
          { mem := w.mem
            foreign := if w.foreign = 0 then 4294967295 else w.foreign - 1 }) :=
  rfl

theorem counterAddRef_mem (this : Nat) (w : World Nat) :
    (counterAddRef this w).2.mem = w.mem := by
  rw [counterAddRef_eq]

theorem counterRelease_mem (this : Nat) (w : World Nat) :
    (counterRelease this w).2.mem = w.mem := by
  rw [counterRelease_eq]

theorem counterAddRef_fst (this : Nat) (w : World Nat) :
    (counterAddRef this w).1 = (w.foreign + 1) % 4294967296 := by
  rw [counterAddRef_eq]

theorem counterAddRef_foreign (this : Nat) (w : World Nat) :
    (counterAddRef this w).2.foreign = (w.foreign + 1) % 4294967296 := by
  rw [counterAddRef_eq]

theorem counterRelease_fst (this : Nat) (w : World Nat) :
    (counterRelease this w).1
      = if w.foreign = 0 then 4294967295 else w.foreign - 1 := by
  rw [counterRelease_eq]

theorem counterRelease_foreign (this : Nat) (w : World Nat) :
    (counterRelease this w).2.foreign
      = if w.foreign = 0 then 4294967295 else w.foreign - 1 := by
  rw [counterRelease_eq]

/-! ## The declarations -/

/-- C1: the dispatch table `SWRT_IRestrictedErrorInfoVTable` has exactly five
members, every one a function pointer, named in this order: `QueryInterface`,
`AddRef`, `Release`, `GetErrorDetails`, `GetReference`; the three operations of
the unknown-interface base come first, the two error-specific ones after. -/
theorem vtable_slot_order :
    SWRT_IRestrictedErrorInfoVTable.members.map Member.name
        = ["QueryInterface", "AddRef", "Release", "GetErrorDetails", "GetReference"]
      ∧ SWRT_IRestrictedErrorInfoVTable.members.length = 5
      ∧ SWRT_IRestrictedErrorInfoVTable.members.all
          (fun m => m.type.isFunctionPointer) = true
      ∧ (SWRT_IRestrictedErrorInfoVTable.members.take 3).map Member.name
          = ["QueryInterface", "AddRef", "Release"]
      ∧ (SWRT_IRestrictedErrorInfoVTable.members.drop 3).map Member.name
          = ["GetErrorDetails", "GetReference"] := by
  refine ⟨rfl, rfl, rfl, rfl, rfl⟩

/-- C2: in every one of the five slots the first parameter is `_this` of type
`SWRT_IRestrictedErrorInfo*`, and the parameter lists are, in order:
`QueryInterface` (handle, `SWRT_Guid*`, `void**`); `AddRef` (handle); `Release`
(handle); `GetErrorDetails` (handle, `SWRT_BStr* description`,
`SWRT_HResult* error`, `SWRT_BStr* restrictedDescription`,
`SWRT_BStr* capabilitySid`); `GetReference` (handle, `SWRT_BStr* reference`). -/
theorem vtable_parameters :
    SWRT_IRestrictedErrorInfoVTable.members.all
        (fun m => (m.type.params.bind List.head?)
          == some ⟨.pointer (.typedefName "SWRT_IRestrictedErrorInfo"), "_this"⟩) = true
      ∧ SWRT_IRestrictedErrorInfoVTable.members.map
          (fun m => (m.name, m.type.params.map (List.map Param.type)))
        = [ ("QueryInterface",
              some [ .pointer (.typedefName "SWRT_IRestrictedErrorInfo")
                   , .pointer (.typedefName "SWRT_Guid")
                   , .pointer (.pointer .void) ])
          , ("AddRef", some [ .pointer (.typedefName "SWRT_IRestrictedErrorInfo") ])
          , ("Release", some [ .pointer (.typedefName "SWRT_IRestrictedErrorInfo") ])
          , ("GetErrorDetails",
              some [ .pointer (.typedefName "SWRT_IRestrictedErrorInfo")
                   , .pointer (.typedefName "SWRT_BStr")
                   , .pointer (.typedefName "SWRT_HResult")
                   , .pointer (.typedefName "SWRT_BStr")
                   , .pointer (.typedefName "SWRT_BStr") ])
          , ("GetReference",
              some [ .pointer (.typedefName "SWRT_IRestrictedErrorInfo")
                   , .pointer (.typedefName "SWRT_BStr") ]) ]
      ∧ SWRT_IRestrictedErrorInfoVTable.members.map
          (fun m => m.type.params.map (List.map Param.name))
        = [ some ["_this", "riid", "ppvObject"]
          , some ["_this"]
          , some ["_this"]
          , some ["_this", "description", "error", "restrictedDescription",
                  "capabilitySid"]
          , some ["_this", "reference"] ] := by
  refine ⟨by decide, rfl, rfl⟩

/-- C3: the return type of each slot: `AddRef` and `Release` return
`uint32_t`; `QueryInterface`, `GetErrorDetails` and `GetReference` return
`SWRT_HResult`. -/
theorem vtable_return_types :
    SWRT_IRestrictedErrorInfoVTable.members.map
        (fun m => (m.name, m.type.returnType))
      = [ ("QueryInterface", some (.typedefName "SWRT_HResult"))
        , ("AddRef", some .uint32_t)
        , ("Release", some .uint32_t)
        , ("GetErrorDetails", some (.typedefName "SWRT_HResult"))
        , ("GetReference", some (.typedefName "SWRT_HResult")) ] := by
  rfl

/-- C4, as stated, fails: not every slot of the table returns `SWRT_HResult`
(the `AddRef` slot returns `uint32_t`). -/
theorem not_every_slot_returns_hresult :
    ¬ (∀ m ∈ SWRT_IRestrictedErrorInfoVTable.members,
        m.type.returnType = some (.typedefName "SWRT_HResult")) := by
  intro h
  have h1 := h ⟨"AddRef", .functionPointer (some .stdcall) .uint32_t
      [⟨thisType, "_this"⟩]⟩ (by simp [SWRT_IRestrictedErrorInfoVTable])
  simp [MemberType.returnType] at h1

/-- C4, amended: the slots whose declared return type is the result-code type
`SWRT_HResult` are exactly `QueryInterface`, `GetErrorDetails` and
`GetReference`; the remaining two, `AddRef` and `Release`, return `uint32_t`. -/
theorem hresult_slots :
    (SWRT_IRestrictedErrorInfoVTable.members.filter
        (fun m => m.type.returnType == some (.typedefName "SWRT_HResult"))).map
        Member.name
      = ["QueryInterface", "GetErrorDetails", "GetReference"]
    ∧ (SWRT_IRestrictedErrorInfoVTable.members.filter
        (fun m => m.type.returnType != some (.typedefName "SWRT_HResult"))).map
        (fun m => (m.name, m.type.returnType))
      = [("AddRef", some .uint32_t), ("Release", some .uint32_t)] := by
  refine ⟨by decide, by decide⟩

/-- C5: the handle struct `SWRT_IRestrictedErrorInfo` has exactly one member,
`VirtualTable`, of type `struct SWRT_IRestrictedErrorInfoVTable*`; it sits at
offset 0 and, for every pointer width, the size of the struct is that pointer
width. -/
theorem handle_one_pointer (T : Target) :
    SWRT_IRestrictedErrorInfo.members
        = [⟨"VirtualTable",
            .object (.pointer (.structTag "SWRT_IRestrictedErrorInfoVTable"))⟩]
      ∧ SWRT_IRestrictedErrorInfo.members.length = 1
      ∧ SWRT_IRestrictedErrorInfo.offsetOf T 0 = some 0
      ∧ SWRT_IRestrictedErrorInfo.sizeOf T = some T.pointerWidth := by
  refine ⟨rfl, rfl, handle_offsetOf T, ?_⟩
  have h : alignUp T.pointerWidth T.pointerWidth = T.pointerWidth :=
    alignUp_of_dvd (Nat.dvd_refl _)
  simp [StructDecl.sizeOf, SWRT_IRestrictedErrorInfo, layoutEnd, MemberType.size,
    alignUp_zero, h]

/-- C9: all five slots of the table are declared with the same calling
convention, `__stdcall`; none has another keyword or none at all. -/
theorem vtable_calling_convention :
    SWRT_IRestrictedErrorInfoVTable.members.map (fun m => m.type.callConv)
        = [some .stdcall, some .stdcall, some .stdcall, some .stdcall, some .stdcall]
      ∧ SWRT_IRestrictedErrorInfoVTable.members.all
          (fun m => m.type.callConv == some .stdcall) = true := by
  refine ⟨rfl, by decide⟩

/-! ## Calls through a handle -/

/-- C6: for every table `t`, every handle at `this` whose `VirtualTable` is the
address `vt` where `t` is stored, and each of the five slots, the call through
the handle runs the function `t` has in that slot, on `this` and the arguments
of the call, and its result is the return value of that function and the resulting
world, unchanged. -/
theorem invoke_dispatches {φ : Type} (M : Machine φ) (w : World φ)
    (this vt : Nat) (t : VirtualTable φ)
    (hh : w.mem this = vt) (ht : installedAt M w vt t) :
    (∀ riid ppvObject,
        invoke M this (.queryInterface riid ppvObject) w
          = some (.hresult (t.QueryInterface this riid ppvObject w).1,
              (t.QueryInterface this riid ppvObject w).2))
      ∧ invoke M this .addRef w
          = some (.uint32 (t.AddRef this w).1, (t.AddRef this w).2)
      ∧ invoke M this .release w
          = some (.uint32 (t.Release this w).1, (t.Release this w).2)
      ∧ (∀ description error restrictedDescription capabilitySid,
          invoke M this
              (.getErrorDetails description error restrictedDescription capabilitySid) w
            = some
                (.hresult (t.GetErrorDetails this description error
                    restrictedDescription capabilitySid w).1,
                  (t.GetErrorDetails this description error
                    restrictedDescription capabilitySid w).2))
      ∧ (∀ reference,
          invoke M this (.getReference reference) w
            = some (.hresult (t.GetReference this reference w).1,
                (t.GetReference this reference w).2)) := by
  exact ⟨fun riid ppvObject => invoke_queryInterface M w this vt t riid ppvObject hh ht,
    invoke_addRef M w this vt t hh ht,
    invoke_release M w this vt t hh ht,
    fun description error restrictedDescription capabilitySid =>
      invoke_getErrorDetails M w this vt t description error restrictedDescription
        capabilitySid hh ht,
    fun reference => invoke_getReference M w this vt t reference hh ht⟩

/-- C6 at the test double: through the handle at address 16 of `doubleWorld 5`,
each of the five calls reaches its own dummy. -/
theorem invoke_dispatches_witness :
    (doubleWorld 5).mem 16 = 64
      ∧ invoke doubleMachine 16 (.queryInterface 200 208) (doubleWorld 5)
          = some (.hresult (-2147467262), doubleWorld 5)
      ∧ invoke doubleMachine 16 .addRef (doubleWorld 5)
          = some (.uint32 6, (counterAddRef 16 (doubleWorld 5)).2)
      ∧ invoke doubleMachine 16 .release (doubleWorld 5)
          = some (.uint32 4, (counterRelease 16 (doubleWorld 5)).2)
      ∧ (∃ w1, invoke doubleMachine 16 (.getErrorDetails 200 208 216 224)
            (doubleWorld 5) = some (.hresult 0, w1) ∧ w1.mem 208 = 7)
      ∧ invoke doubleMachine 16 (.getReference 200) (doubleWorld 5)
          = some (.hresult 1, doubleWorld 5) := by
  have h := invoke_dispatches doubleMachine (doubleWorld 5) 16 64 doubleTable rfl
    (doubleTable_installed 5)
  refine ⟨rfl, h.1 200 208, h.2.1, h.2.2.1, ⟨_, h.2.2.2.1 200 208 216 224, ?_⟩,
    h.2.2.2.2 200⟩
  simp [doubleTable]

/-- C7: when the `QueryInterface` of the table, called on these arguments,
leaves the cell `*ppvObject` as it was, then so does the call through the
handle: the call returns the code the function returned (a failure code
included) and the world the function left, in which `*ppvObject` has its value
from before the call. -/
theorem queryInterface_output_untouched {φ : Type} (M : Machine φ) (w : World φ)
    (this vt : Nat) (t : VirtualTable φ) (riid ppvObject : Nat)
    (hh : w.mem this = vt) (ht : installedAt M w vt t)
    (hq : (t.QueryInterface this riid ppvObject w).2.mem ppvObject
            = w.mem ppvObject) :
    ∃ w1, invoke M this (.queryInterface riid ppvObject) w
            = some (.hresult (t.QueryInterface this riid ppvObject w).1, w1)
      ∧ w1 = (t.QueryInterface this riid ppvObject w).2
      ∧ w1.mem ppvObject = w.mem ppvObject := by
  exact ⟨(t.QueryInterface this riid ppvObject w).2,
    invoke_queryInterface M w this vt t riid ppvObject hh ht, rfl, hq⟩

/-- C7 at the test double whose `QueryInterface` fails with `E_NOINTERFACE`:
the cell at 208 keeps its value. -/
theorem queryInterface_output_untouched_witness :
    (doubleWorld 0).mem 16 = 64
      ∧ (failingQueryInterface 16 200 208 (doubleWorld 0)).2.mem 208
          = (doubleWorld 0).mem 208
      ∧ ∃ w1, invoke doubleMachine 16 (.queryInterface 200 208) (doubleWorld 0)
            = some (.hresult (-2147467262), w1)
          ∧ w1 = doubleWorld 0
          ∧ w1.mem 208 = (doubleWorld 0).mem 208 :=
  ⟨rfl, rfl,
    queryInterface_output_untouched doubleMachine (doubleWorld 0) 16 64 doubleTable
      200 208 rfl (doubleTable_installed 0) rfl⟩

/-- C8, as stated, fails: with the counting fake table and the starting count
4294967295, `AddRef` through the handle returns 0, not 4294967296, which no
`uint32_t` can be. -/
theorem addRef_overflow :
    ¬ (∀ (M : Machine Nat) (w : World Nat) (this vt : Nat) (t : VirtualTable Nat),
        w.mem this = vt → installedAt M w vt t →
        t.AddRef = counterAddRef → t.Release = counterRelease →
        ∀ n, w.foreign = n →
          ∃ w1 w2, invoke M this .addRef w = some (.uint32 (n + 1), w1)
            ∧ invoke M this .release w1 = some (.uint32 n, w2)) := by
  intro h
  obtain ⟨w1, w2, h1, _⟩ := h doubleMachine (doubleWorld 4294967295) 16 64 doubleTable
    rfl (doubleTable_installed _) rfl rfl 4294967295 rfl
  rw [invoke_addRef doubleMachine (doubleWorld 4294967295) 16 64 doubleTable rfl
    (doubleTable_installed _)] at h1
  have h2 : (doubleTable.AddRef 16 (doubleWorld 4294967295)).1 = 4294967295 + 1 := by
    simpa using congrArg (fun r => r.1) (Option.some.inj h1)
  have h3 : (doubleTable.AddRef 16 (doubleWorld 4294967295)).1 = 0 := by
    simp [doubleTable, counterAddRef_fst, doubleWorld]
  omega

/-- C8, amended: with the counting fake table and a starting count `n` with
`n + 1 < 4294967296`, `AddRef` through the handle returns `n + 1` and `Release`
through the same handle right after returns `n`; the counter is then `n` again
and memory is as before, so no other reference-count call was made. -/
theorem addRef_then_release (M : Machine Nat) (w : World Nat) (this vt : Nat)
    (t : VirtualTable Nat) (hh : w.mem this = vt) (ht : installedAt M w vt t)
    (ha : t.AddRef = counterAddRef) (hr : t.Release = counterRelease)
    (n : Nat) (hn : w.foreign = n) (hb : n + 1 < 4294967296) :
    ∃ w1 w2, invoke M this .addRef w = some (.uint32 (n + 1), w1)
      ∧ invoke M this .release w1 = some (.uint32 n, w2)
      ∧ w1.foreign = n + 1
      ∧ w2.foreign = n
      ∧ w2.mem = w.mem := by
  have e1 : (n + 1) % 4294967296 = n + 1 := Nat.mod_eq_of_lt hb
  have e2 : (if n + 1 = 0 then 4294967295 else n + 1 - 1) = n := by simp
  have hm1 : (counterAddRef this w).2.mem = w.mem := counterAddRef_mem this w
  have hw1 : (counterAddRef this w).2.mem this = vt := by rw [hm1]; exact hh
  have ht1 : installedAt M (counterAddRef this w).2 vt t :=
    installedAt_of_mem_eq M w _ vt t hm1 ht
  have hf1 : (counterAddRef this w).2.foreign = n + 1 := by
    rw [counterAddRef_foreign, hn, e1]
  refine ⟨(counterAddRef this w).2,
    (counterRelease this (counterAddRef this w).2).2, ?_, ?_, hf1, ?_, ?_⟩
  · rw [invoke_addRef M w this vt t hh ht, ha, counterAddRef_fst, hn, e1]
  · rw [invoke_release M _ this vt t hw1 ht1, hr, counterRelease_fst, hf1, e2]
  · rw [counterRelease_foreign, hf1, e2]
  · rw [counterRelease_mem, hm1]

/-- C8, amended, at the test double with starting count 41: `AddRef` returns 42
and `Release` returns 41. -/
theorem addRef_then_release_witness :
    (doubleWorld 41).mem 16 = 64 ∧ 41 + 1 < 4294967296
      ∧ ∃ w1 w2, invoke doubleMachine 16 .addRef (doubleWorld 41)
            = some (.uint32 (41 + 1), w1)
          ∧ invoke doubleMachine 16 .release w1 = some (.uint32 41, w2)
          ∧ w1.foreign = 41 + 1
          ∧ w2.foreign = 41
          ∧ w2.mem = (doubleWorld 41).mem :=
  ⟨rfl, by decide,
    addRef_then_release doubleMachine (doubleWorld 41) 16 64 doubleTable rfl
      (doubleTable_installed 41) rfl rfl 41 rfl (by decide)⟩

end SWRT
